import Mathlib

/-!
# Verification of the go-haproxy PROXY protocol v2 codec

A shallow embedding of the `haproxy` Go package (`header.go`, `version.go`
and the address/field codec file) and proofs about its decode and encode
paths.

Modelling conventions:
* Go bytes are `Nat` values (real executions keep them below 256).
* An `io.Reader` is a `ByteSource`: a list of pending chunks.  A single
  `Read(p)` call delivers at most the front chunk (so a multi-chunk source
  models a transport that performs short reads, and a one-chunk source
  models `bytes.Reader`, which always hands out `min(len(p), remaining)`
  bytes and reports `io.EOF` only once it is empty).  Buffers handed to
  `Read` are zero-initialised by `make`, so a short read leaves a
  zero-padded tail in the buffer; the model returns that padded buffer.
* A Go runtime panic (negative `make` length, method call through a nil
  interface) is an explicit `panicked` result.
* Machine integers: `AddressLength` is Go `int16`; it is modelled as an
  `Int` produced by `toInt16` from the big-endian 16-bit value.
-/

namespace Haproxy

/-- A readable byte source: the list of chunks a reader will hand out.
One `Read` call returns at most the front chunk. -/
abbrev ByteSource := List (List Nat)

/-- One call to `r.Read(p)` with `len(p) = k`.  Returns the `k`-byte buffer
(zero-padded past the bytes actually delivered), the count `n` of bytes
actually read, the remaining source, and whether the reader returned an
error (`io.EOF` on an exhausted source). -/
def srcRead : ByteSource → Nat → (List Nat × Nat × ByteSource × Bool)
  | [], k => (List.replicate k 0, 0, [], true)
  | c :: rest, k =>
      let t := c.take k
      let r := c.drop k
      (t ++ List.replicate (k - t.length) 0, t.length,
        if r = [] then rest else r :: rest, false)

/-- The source corresponding to `bytes.NewReader(bs)`. -/
def ofBytes (bs : List Nat) : ByteSource := if bs = [] then [] else [bs]

/-- `var ProtocolSignature = []byte{0x0D, 0x0A, 0x0D, 0x0A, 0x00, 0x0D, 0x0A,
0x51, 0x55, 0x49, 0x54, 0x0A}` -/
def ProtocolSignature : List Nat :=
  [0x0D, 0x0A, 0x0D, 0x0A, 0x00, 0x0D, 0x0A, 0x51, 0x55, 0x49, 0x54, 0x0A]

/-- `const ProtocolVersion byte = 0x2` -/
abbrev ProtocolVersion : Nat := 2

/-- `CommandLOCAL Command = iota` -/
abbrev CommandLOCAL : Nat := 0
/-- `CommandPROXY` -/
abbrev CommandPROXY : Nat := 1

/-- `AddressFamilyUNSPEC AddressFamily = iota` -/
abbrev AddressFamilyUNSPEC : Nat := 0
/-- `AddressFamilyINET` -/
abbrev AddressFamilyINET : Nat := 1
/-- `AddressFamilyINET6` -/
abbrev AddressFamilyINET6 : Nat := 2
/-- `AddressFamilyUNIX` -/
abbrev AddressFamilyUNIX : Nat := 3

/-- `TransportProtocolUNSPEC TransportProtocol = iota` -/
abbrev TransportProtocolUNSPEC : Nat := 0
/-- `TransportProtocolSTREAM` -/
abbrev TransportProtocolSTREAM : Nat := 1
/-- `TransportProtocolDGRAM` -/
abbrev TransportProtocolDGRAM : Nat := 2

/-- `net.UnixAddr`: a name and a network tag ("unix", "unixpacket" or
"unixgram").  `String()` returns `Name`, `Network()` returns `Net`. -/
structure GoUnixAddr where
  Name : List Nat
  Net : String
deriving DecidableEq, Repr

/-- The `net.Addr` values the package can meet: `*net.TCPAddr`,
`*net.UDPAddr` (an IP byte slice and an `int` port) and `*net.UnixAddr`. -/
inductive NetAddr where
  | TCPAddr (IP : List Nat) (Port : Int)
  | UDPAddr (IP : List Nat) (Port : Int)
  | UnixAddr (a : GoUnixAddr)
deriving DecidableEq, Repr

/-- The `ProxyAddress` interface as the closed sum of its three
implementations: `IPv4Address`, `IPv6Address`, `UnixAddr` (each a pair of
source and destination addresses). -/
inductive ProxyAddress where
  | IPv4Address (SourceAddr DestinationAddr : NetAddr)
  | IPv6Address (SourceAddr DestinationAddr : NetAddr)
  | UnixAddr (SourceAddr DestinationAddr : GoUnixAddr)
deriving DecidableEq, Repr

/-- `type Header struct { Command Command; ProxyAddress ProxyAddress }`.
A `none` address is the nil interface value. -/
structure Header where
  Command : Nat
  ProxyAddress : Option Haproxy.ProxyAddress
deriving DecidableEq, Repr

/-- The zero value `var header Header`. -/
def Header.zero : Header := ⟨CommandLOCAL, none⟩

/-- `binary.BigEndian.Uint16(b)` = `uint16(b[0])<<8 | uint16(b[1])`. -/
def be16 (b0 b1 : Nat) : Nat := (b0 <<< 8) ||| b1

/-- Conversion of a 16-bit big-endian value to Go `int16`
(`AddressLength(binary.BigEndian.Uint16(data))`). -/
def toInt16 (u : Nat) : Int := if u < 32768 then (u : Int) else (u : Int) - 65536

/-- The errors `Header.ReadFrom` can return. `streamError` stands for any
error propagated from the underlying reader (for example `io.EOF`); the
other constructors mirror `ProxyProtocolError`, the four `fmt.Errorf`
validation failures, and `TransportProtocolError`. -/
inductive DecodeError where
  | streamError
  | ProxyProtocolError (Expected Found : List Nat)
  | unsupportedVersion (got : Nat)
  | unsupportedCommand (got : Nat)
  | unsupportedAddressFamily (got : Nat)
  | unsupportedTransport (got : Nat)
  | TransportProtocolError (TransportProtocol AddressFamily : Nat) (AddressLength : Int)
deriving DecidableEq, Repr

/-- Outcome of `Header.ReadFrom`: the returned byte count `m`, the header
(as mutated so far), the remaining source, and either success, an error, or
a runtime panic. -/
inductive ReadResult where
  | ok (m : Nat) (h : Header) (rest : ByteSource)
  | fail (m : Nat) (h : Header) (e : DecodeError) (rest : ByteSource)
  | panicked (m : Nat)
deriving DecidableEq, Repr

/-- `readPort`: read 2 bytes, big-endian `uint16`. -/
def readPort (s : ByteSource) : Nat × Nat × ByteSource × Bool :=
  let (buf, n, s, e) := srcRead s 2
  (be16 (buf.headD 0) (buf.tail.headD 0), n, s, e)

/-- `readIP`: read `length` bytes into a fresh buffer and return the buffer
as the IP (zero-padded if the read was short). -/
def readIP (s : ByteSource) (length : Nat) : List Nat × Nat × ByteSource × Bool :=
  srcRead s length

/-- `ipReadResult` -/
structure IpReadResult where
  sourceIP : List Nat
  destinationIP : List Nat
  sourcePort : Nat
  destinationPort : Nat
deriving DecidableEq, Repr

/-- `readIPsAndPorts`: source IP, destination IP, source port, destination
port, in that order; `none` with the byte count consumed so far when a read
errors. -/
def readIPsAndPorts (s : ByteSource) (addressLength : Nat) :
    Option IpReadResult × Nat × ByteSource :=
  let (sip, n1, s, e) := readIP s addressLength
  if e then (none, n1, s) else
  let (dip, n2, s, e) := readIP s addressLength
  if e then (none, n1 + n2, s) else
  let (sp, n3, s, e) := readPort s
  if e then (none, n1 + n2 + n3, s) else
  let (dp, n4, s, e) := readPort s
  if e then (none, n1 + n2 + n3 + n4, s) else
  (some ⟨sip, dip, sp, dp⟩, n1 + n2 + n3 + n4, s)

/-- `readUnix`: two 108-byte blocks (source, destination). -/
def readUnix (s : ByteSource) : Option (List Nat × List Nat) × Nat × ByteSource :=
  let (src, n, s, e) := srcRead s 108
  if e then (none, n, s) else
  let (dst, k, s, e) := srcRead s 108
  if e then (none, n + k, s) else
  (some (src, dst), n + k, s)

/-- The `switch protocol` block of `Header.ReadFrom`, entered with the
family/transport nibbles, the decoded (int16) address length, the running
byte count `m`, and the remaining source.  The default branch models
`make([]byte, addressLength)`, which panics in Go when `addressLength` is
negative, followed by a single drain read and `TransportProtocolError`. -/
def dispatchAddress (h : Header) (fam tp : Nat) (addressLength : Int) (m : Nat)
    (s : ByteSource) : ReadResult :=
  if fam = AddressFamilyINET ∧ tp = TransportProtocolSTREAM then
    match readIPsAndPorts s 4 with
    | (none, n, s) => .fail (m + n) h .streamError s
    | (some r, n, s) =>
        .ok (m + n) { h with ProxyAddress := some (.IPv4Address
          (.TCPAddr r.sourceIP (r.sourcePort : Int))
          (.TCPAddr r.destinationIP (r.destinationPort : Int))) } s
  else if fam = AddressFamilyINET ∧ tp = TransportProtocolDGRAM then
    match readIPsAndPorts s 4 with
    | (none, n, s) => .fail (m + n) h .streamError s
    | (some r, n, s) =>
        .ok (m + n) { h with ProxyAddress := some (.IPv4Address
          (.UDPAddr r.sourceIP (r.sourcePort : Int))
          (.UDPAddr r.destinationIP (r.destinationPort : Int))) } s
  else if fam = AddressFamilyINET6 ∧ tp = TransportProtocolSTREAM then
    match readIPsAndPorts s 16 with
    | (none, n, s) => .fail (m + n) h .streamError s
    | (some r, n, s) =>
        .ok (m + n) { h with ProxyAddress := some (.IPv6Address
          (.TCPAddr r.sourceIP (r.sourcePort : Int))
          (.TCPAddr r.destinationIP (r.destinationPort : Int))) } s
  else if fam = AddressFamilyINET6 ∧ tp = TransportProtocolDGRAM then
    match readIPsAndPorts s 16 with
    | (none, n, s) => .fail (m + n) h .streamError s
    | (some r, n, s) =>
        .ok (m + n) { h with ProxyAddress := some (.IPv6Address
          (.UDPAddr r.sourceIP (r.sourcePort : Int))
          (.UDPAddr r.destinationIP (r.destinationPort : Int))) } s
  else if fam = AddressFamilyUNIX ∧ tp = TransportProtocolSTREAM then
    match readUnix s with
    | (none, n, s) => .fail (m + n) h .streamError s
    | (some r, n, s) =>
        .ok (m + n) { h with ProxyAddress := some (.UnixAddr
          ⟨r.1, "unixpacket"⟩ ⟨r.2, "unixpacket"⟩) } s
  else if fam = AddressFamilyUNIX ∧ tp = TransportProtocolDGRAM then
    match readUnix s with
    | (none, n, s) => .fail (m + n) h .streamError s
    | (some r, n, s) =>
        .ok (m + n) { h with ProxyAddress := some (.UnixAddr
          ⟨r.1, "unixgram"⟩ ⟨r.2, "unixgram"⟩) } s
  else
    if addressLength < 0 then .panicked m
    else
      let (_, n, s, e) := srcRead s addressLength.toNat
      if e then .fail (m + n) h .streamError s
      else .fail (m + n) h (.TransportProtocolError tp fam addressLength) s

/-- `func (h *Header) ReadFrom(r io.Reader) (m int64, err error)`:
signature, version/command byte, protocol byte, address length, then the
address dispatch. -/
def Header.ReadFrom (h : Header) (s : ByteSource) : ReadResult :=
  let (signature, n, s, e) := srcRead s 12
  let m := n
  if e then .fail m h .streamError s
  else if signature ≠ ProtocolSignature then
    .fail m h (.ProxyProtocolError ProtocolSignature signature) s
  else
  let (vbuf, n1, s, e) := srcRead s 1
  let m := m + n1
  if e then .fail m h .streamError s
  else
  let protocolVersion := vbuf.headD 0 >>> 4
  let command := vbuf.headD 0 &&& 0b1111
  if protocolVersion ≠ ProtocolVersion then .fail m h (.unsupportedVersion protocolVersion) s
  else if command ≠ CommandLOCAL ∧ command ≠ CommandPROXY then
    .fail m h (.unsupportedCommand command) s
  else
  let h := { h with Command := command }
  let (pbuf, n2, s, e) := srcRead s 1
  let m := m + n2
  if e then .fail m h .streamError s
  else
  let addressFamily := pbuf.headD 0 >>> 4
  let transportProtocol := pbuf.headD 0 &&& 0b1111
  if addressFamily ≠ AddressFamilyUNSPEC ∧ addressFamily ≠ AddressFamilyINET ∧
      addressFamily ≠ AddressFamilyINET6 ∧ addressFamily ≠ AddressFamilyUNIX then
    .fail m h (.unsupportedAddressFamily addressFamily) s
  else if transportProtocol ≠ TransportProtocolUNSPEC ∧
      transportProtocol ≠ TransportProtocolSTREAM ∧
      transportProtocol ≠ TransportProtocolDGRAM then
    .fail m h (.unsupportedTransport transportProtocol) s
  else
  let (lbuf, n3, s, e) := srcRead s 2
  let m := m + n3
  if e then .fail m h .streamError s
  else
  let addressLength := toInt16 (be16 (lbuf.headD 0) (lbuf.tail.headD 0))
  if addressLength = 0 then .ok m h s
  else dispatchAddress h addressFamily transportProtocol addressLength m s

/-- `getTransportProtocol`: `*net.TCPAddr` is STREAM, `*net.UDPAddr` is
DGRAM, `*net.UnixAddr` is DGRAM when its network is "unixgram" and STREAM
otherwise. -/
def getTransportProtocol : NetAddr → Nat
  | .TCPAddr _ _ => TransportProtocolSTREAM
  | .UDPAddr _ _ => TransportProtocolDGRAM
  | .UnixAddr a => if a.Net = "unixgram" then TransportProtocolDGRAM else TransportProtocolSTREAM

/-- `getSignature` of each `ProxyAddress` implementation: the
`ProtocolByte` pair (address family, transport protocol). -/
def ProxyAddress.getSignature : ProxyAddress → Nat × Nat
  | .IPv4Address src _ => (AddressFamilyINET, getTransportProtocol src)
  | .IPv6Address src _ => (AddressFamilyINET6, getTransportProtocol src)
  | .UnixAddr src _ => (AddressFamilyUNIX, getTransportProtocol (.UnixAddr src))

/-- `getLength` of each `ProxyAddress` implementation (an int16). -/
def ProxyAddress.getLength : ProxyAddress → Int
  | .IPv4Address _ _ => 12
  | .IPv6Address _ _ => 36
  | .UnixAddr _ _ => 216

/-- `alignIP`: left-pad an IP shorter than 16 bytes with zeros. -/
def alignIP (ip : List Nat) : List Nat :=
  if ip.length < 16 then List.replicate (16 - ip.length) 0 ++ ip else ip

/-- `addressToBytes`: aligned IP for TCP/UDP addresses; for a UNIX address,
a 108-byte zero block with `addr.String()` (the name) copied in. -/
def addressToBytes : NetAddr → List Nat
  | .TCPAddr ip _ => alignIP ip
  | .UDPAddr ip _ => alignIP ip
  | .UnixAddr a => a.Name.take 108 ++ List.replicate (108 - (a.Name.take 108).length) 0

/-- `getPort`: `uint16(port)` for TCP/UDP; a UNIX address panics
("address type is not supported"), modelled as `none`. -/
def getPort : NetAddr → Option Nat
  | .TCPAddr _ port => some ((port % 65536).toNat)
  | .UDPAddr _ port => some ((port % 65536).toNat)
  | .UnixAddr _ => none

/-- Big-endian bytes of a `uint16` as written by `binary.Write`. -/
def u16beBytes (p : Nat) : List Nat := [(p >>> 8) % 256, p % 256]

/-- `AddressLength.WriteTo`: the int16 written big-endian (two's
complement). -/
def addressLengthBytes (a : Int) : List Nat := u16beBytes ((a % 65536).toNat)

/-- `writePorts`: source port then destination port, each `getPort` result
written big-endian; the Bool is true when `getPort` panicked. -/
def writePorts (src dst : NetAddr) : List Nat × Bool :=
  match getPort src with
  | none => ([], true)
  | some p1 =>
    match getPort dst with
    | none => (u16beBytes p1, true)
    | some p2 => (u16beBytes p1 ++ u16beBytes p2, false)

/-- The `WriteTo` payload of each `ProxyAddress` implementation: the bytes
written and whether a panic occurred while producing them. -/
def ProxyAddress.WriteTo : ProxyAddress → List Nat × Bool
  | .IPv4Address src dst =>
      let b1 := (addressToBytes src).drop 12
      let b2 := (addressToBytes dst).drop 12
      let (pb, bad) := writePorts src dst
      (b1 ++ b2 ++ pb, bad)
  | .IPv6Address src dst =>
      let b1 := addressToBytes src
      let b2 := addressToBytes dst
      let (pb, bad) := writePorts src dst
      (b1 ++ b2 ++ pb, bad)
  | .UnixAddr src dst =>
      (addressToBytes (.UnixAddr src) ++ addressToBytes (.UnixAddr dst), false)

/-- Outcome of `Header.WriteTo` against an in-memory buffer (which never
errors): the bytes written, possibly cut short by a runtime panic. -/
inductive WriteResult where
  | ok (out : List Nat)
  | panicked (out : List Nat)
deriving DecidableEq, Repr

/-- The bytes a `WriteTo` call put into the buffer. -/
def WriteResult.written : WriteResult → List Nat
  | .ok out => out
  | .panicked out => out

/-- Whether a `WriteTo` call completed without panicking. -/
def WriteResult.isOk : WriteResult → Bool
  | .ok _ => true
  | .panicked _ => false

/-- `func (h Header) WriteTo(w io.Writer) (m int64, err error)`: signature,
version byte, then `h.ProxyAddress.getSignature()` (a method call through
the interface — a nil `ProxyAddress` panics here), then, for PROXY, the
variant length and payload, and for any other command a zero length. -/
def Header.WriteTo (h : Header) : WriteResult :=
  let out := ProtocolSignature
  let out := out ++ [((ProtocolVersion <<< 4) % 256) ||| (h.Command % 256)]
  match h.ProxyAddress with
  | none => .panicked out
  | some pa =>
    let sigB := pa.getSignature
    let out := out ++ [((sigB.1 <<< 4) % 256) ||| (sigB.2 % 256)]
    if h.Command = CommandPROXY then
      let out := out ++ addressLengthBytes pa.getLength
      let (ab, bad) := pa.WriteTo
      if bad then .panicked (out ++ ab) else .ok (out ++ ab)
    else
      .ok (out ++ addressLengthBytes 0)

/-! ## Shared evaluation and arithmetic lemmas -/

/-- Reading exactly the length of a leading block consumes that block and
leaves the rest as the new (single-chunk) source. -/
theorem srcRead_chunk (c tail : List Nat) (k : Nat) (h : c.length = k) :
    srcRead [c ++ tail] k = (c, k, ofBytes tail, false) := by
  subst h
  simp [srcRead, ofBytes, List.take_left, List.drop_left]

/-- A read that consumes a whole single-chunk source. -/
theorem srcRead_chunk_all (c : List Nat) (k : Nat) (h : c.length = k) :
    srcRead [c] k = (c, k, [], false) := by
  have := srcRead_chunk c [] k h
  simpa [ofBytes] using this

/-- The high nibble of a byte. -/
theorem shiftRight4_eq_div (x : Nat) : x >>> 4 = x / 16 := by
  rw [Nat.shiftRight_eq_div_pow]

/-- The low nibble of a byte. -/
theorem and15_eq_mod (x : Nat) : x &&& 15 = x % 16 := by
  have := Nat.and_pow_two_sub_one_eq_mod x 4
  norm_num at this
  exact this

/-- `binary.BigEndian.Uint16` on in-range bytes is plain base-256
arithmetic. -/
theorem be16_eq_of_lt (x y : Nat) (hy : y < 256) : be16 x y = 256 * x + y := by
  unfold be16
  rw [Nat.shiftLeft_eq]
  have h2 := Nat.mul_add_lt_is_or (show y < 2 ^ 8 by omega) x
  rw [show x * 2 ^ 8 = 2 ^ 8 * x by ring, ← h2]

/-- One-byte read from a single-chunk source. -/
theorem srcRead_one (x : Nat) (l : List Nat) :
    srcRead [x :: l] 1 = ([x], 1, ofBytes l, false) := by
  cases l <;> rfl

/-- Two-byte read from a single-chunk source. -/
theorem srcRead_two (x y : Nat) (l : List Nat) :
    srcRead [x :: y :: l] 2 = ([x, y], 2, ofBytes l, false) := by
  cases l <;> rfl

/-- Four-byte read from a single-chunk source. -/
theorem srcRead_four (x1 x2 x3 x4 : Nat) (l : List Nat) :
    srcRead [x1 :: x2 :: x3 :: x4 :: l] 4 = ([x1, x2, x3, x4], 4, ofBytes l, false) := by
  cases l <;> rfl

/-- A cons source is never the empty-list source. -/
theorem ofBytes_cons (x : Nat) (l : List Nat) : ofBytes (x :: l) = [x :: l] := by
  simp [ofBytes]

/-- The canonical 28-byte test vector from the repository's tests. -/
def canonicalVector : List Nat :=
  [0x0D, 0x0A, 0x0D, 0x0A, 0x00, 0x0D, 0x0A, 0x51, 0x55, 0x49, 0x54, 0x0A,
   0x21, 0x11, 0x00, 0x0C,
   0x7F, 0x00, 0x00, 0x01, 0x7F, 0x00, 0x00, 0x01, 0xA5, 0xCE, 0x05, 0x3A]

/-! ## Claim theorems -/

/-- C6: decoding the canonical 28-byte vector succeeds with command PROXY,
an IPv4 variant with source 127.0.0.1:42446 and destination 127.0.0.1:1338,
no error, and exactly 28 bytes consumed. -/
theorem c6_canonical_vector_decodes :
    Header.ReadFrom Header.zero (ofBytes canonicalVector) =
      .ok 28 ⟨CommandPROXY, some (.IPv4Address
        (.TCPAddr [127, 0, 0, 1] 42446) (.TCPAddr [127, 0, 0, 1] 1338))⟩ [] := by
  decide

/-- C9: field reads do not accumulate across short reads.  Delivering the
canonical vector in two chunks (6 bytes, then the remaining 22) makes the
single `r.Read` of the signature return only 6 bytes with no error, so the
decoder compares a half-filled buffer against the magic and fails with a
signature mismatch after 6 bytes, while the same bytes delivered in one
chunk decode successfully. -/
theorem c9_single_shot_reads_diverge_on_short_reads :
    Header.ReadFrom Header.zero
        [[0x0D, 0x0A, 0x0D, 0x0A, 0x00, 0x0D],
         [0x0A, 0x51, 0x55, 0x49, 0x54, 0x0A, 0x21, 0x11, 0x00, 0x0C,
          0x7F, 0x00, 0x00, 0x01, 0x7F, 0x00, 0x00, 0x01, 0xA5, 0xCE, 0x05, 0x3A]] =
      .fail 6 Header.zero
        (.ProxyProtocolError ProtocolSignature
          [0x0D, 0x0A, 0x0D, 0x0A, 0x00, 0x0D, 0, 0, 0, 0, 0, 0])
        [[0x0A, 0x51, 0x55, 0x49, 0x54, 0x0A, 0x21, 0x11, 0x00, 0x0C,
          0x7F, 0x00, 0x00, 0x01, 0x7F, 0x00, 0x00, 0x01, 0xA5, 0xCE, 0x05, 0x3A]] ∧
    Header.ReadFrom Header.zero (ofBytes canonicalVector) =
      .ok 28 ⟨CommandPROXY, some (.IPv4Address
        (.TCPAddr [127, 0, 0, 1] 42446) (.TCPAddr [127, 0, 0, 1] 1338))⟩ [] := by
  decide

/-- C4 counterexample: encoding a PROXY header with no attached variant
writes 13 bytes (signature plus version byte) and then panics on the nil
interface method call, so it neither avoids writing nor returns an error. -/
theorem c4_counterexample :
    (Header.WriteTo ⟨CommandPROXY, none⟩).written.length = 13 ∧
    (Header.WriteTo ⟨CommandPROXY, none⟩).isOk = false := by
  decide

/-- C4 amended: encoding a PROXY header with no attached variant panics
(`h.ProxyAddress.getSignature()` through the nil interface) after the
12-byte signature and the version byte have already been written. -/
theorem c4_proxy_without_variant_panics_after_13_bytes :
    Header.WriteTo ⟨CommandPROXY, none⟩ = .panicked (ProtocolSignature ++ [0x21]) := by
  decide

/-- C5 counterexample: encoding a LOCAL header with no attached variant
does not succeed — it panics on the nil interface method call. -/
theorem c5_counterexample :
    (Header.WriteTo ⟨CommandLOCAL, none⟩).isOk = false := by
  decide

/-- C5 amended: encoding a LOCAL header with a variant attached succeeds
with AddressLength serialized as 0 and no payload bytes: the output is
exactly signature, version byte 0x20, the variant's protocol byte, and the
two zero length bytes. -/
theorem c5_local_with_variant_writes_zero_length :
    ∀ pa : ProxyAddress, Header.WriteTo ⟨CommandLOCAL, some pa⟩ =
      .ok (ProtocolSignature ++
        [0x20, ((pa.getSignature.1 <<< 4) % 256) ||| (pa.getSignature.2 % 256), 0, 0]) := by
  intro pa
  cases pa <;> simp [Header.WriteTo, ProxyAddress.getSignature] <;>
    exact ⟨by decide, by decide⟩

/-- C1 counterexample: the round trip fails inside the original claim's
domain, at the valid LOCAL header with no address variant.  Encoding that
header does not produce a decodable byte sequence: it panics on the
nil-interface `getSignature()` call after writing only the 12-byte
signature and the version byte, and decoding the 13 bytes it did write
fails with a stream error instead of yielding the header. -/
theorem c1_counterexample :
    Header.WriteTo ⟨CommandLOCAL, none⟩ = .panicked (ProtocolSignature ++ [0x20]) ∧
    Header.ReadFrom Header.zero
        (ofBytes (Header.WriteTo ⟨CommandLOCAL, none⟩).written) =
      .fail 13 ⟨CommandLOCAL, none⟩ .streamError [] := by
  decide

/-- C2 counterexample: a declared AddressLength of 10 for an INET/STREAM
header (fixed size 12) does not raise any length-mismatch error: the
decoder ignores the declared length, reads the fixed 12 payload bytes, and
succeeds reporting 28 bytes consumed. -/
theorem c2_counterexample :
    Header.ReadFrom Header.zero (ofBytes
      [0x0D, 0x0A, 0x0D, 0x0A, 0x00, 0x0D, 0x0A, 0x51, 0x55, 0x49, 0x54, 0x0A,
       0x21, 0x11, 0x00, 0x0A,
       0x7F, 0x00, 0x00, 0x01, 0x7F, 0x00, 0x00, 0x01, 0xA5, 0xCE, 0x05, 0x3A]) =
      .ok 28 ⟨CommandPROXY, some (.IPv4Address
        (.TCPAddr [127, 0, 0, 1] 42446) (.TCPAddr [127, 0, 0, 1] 1338))⟩ [] := by
  decide

/-- C3 counterexample: an unrecognized pair (UNSPEC/STREAM) with declared
length bytes 0x80 0x00 (value 32768, int16 -32768, nonzero) does not drain
and error — the decoder panics on `make([]byte, addressLength)` with the
negative length, consuming only the 16 header bytes. -/
theorem c3_counterexample :
    Header.ReadFrom Header.zero (ofBytes
      [0x0D, 0x0A, 0x0D, 0x0A, 0x00, 0x0D, 0x0A, 0x51, 0x55, 0x49, 0x54, 0x0A,
       0x21, 0x01, 0x80, 0x00, 1, 2, 3]) = .panicked 16 := by
  decide

/-- C7: any input of at least 12 bytes whose first 12 bytes differ from the
magic constant fails with a signature-mismatch error carrying the expected
and the actual 12 bytes, reporting exactly 12 bytes consumed. -/
theorem c7_signature_mismatch (input : List Nat)
    (hlen : 12 ≤ input.length) (hsig : input.take 12 ≠ ProtocolSignature) :
    Header.ReadFrom Header.zero (ofBytes input) =
      .fail 12 Header.zero (.ProxyProtocolError ProtocolSignature (input.take 12))
        (ofBytes (input.drop 12)) := by
  have hne : input ≠ [] := List.ne_nil_of_length_pos (by omega)
  have h12 : (input.take 12).length = 12 := by
    simp only [List.length_take]
    omega
  have key := srcRead_chunk (input.take 12) (input.drop 12) 12 h12
  rw [List.take_append_drop] at key
  rw [show ofBytes input = [input] by simp [ofBytes, hne]]
  unfold Header.ReadFrom
  rw [key]
  simp [hsig]

/-- The canonical vector with its first byte replaced by 0x00. -/
def corruptedVector : List Nat := 0x00 :: canonicalVector.tail

/-- C7 witness: the canonical vector with its first byte replaced by 0x00. -/
theorem c7_witness :
    (12 ≤ corruptedVector.length ∧ corruptedVector.take 12 ≠ ProtocolSignature) ∧
    Header.ReadFrom Header.zero (ofBytes corruptedVector) =
      .fail 12 Header.zero
        (.ProxyProtocolError ProtocolSignature (corruptedVector.take 12))
        (ofBytes (corruptedVector.drop 12)) :=
  ⟨⟨by decide, by decide⟩, c7_signature_mismatch _ (by decide) (by decide)⟩

/-- C8: with a valid signature, a version nibble other than 2 fails with
the unsupported-version error; with version 2, a command nibble outside
{0,1} fails with the unsupported-command error; past those, a family
nibble outside {0,1,2,3} fails with the unsupported-address-family error,
and a transport nibble outside {0,1,2} fails with the
unsupported-transport error — reserved nibble values are never accepted. -/
theorem c8_reserved_nibbles_rejected (vb pb : Nat) (rest : List Nat)
    (hvb : vb < 256) (hpb : pb < 256) :
    (vb >>> 4 ≠ 2 →
      Header.ReadFrom Header.zero (ofBytes (ProtocolSignature ++ vb :: pb :: rest)) =
        .fail 13 Header.zero (.unsupportedVersion (vb >>> 4)) [pb :: rest]) ∧
    (vb >>> 4 = 2 → 2 ≤ vb &&& 15 →
      Header.ReadFrom Header.zero (ofBytes (ProtocolSignature ++ vb :: pb :: rest)) =
        .fail 13 Header.zero (.unsupportedCommand (vb &&& 15)) [pb :: rest]) ∧
    (vb >>> 4 = 2 → vb &&& 15 ≤ 1 → 4 ≤ pb >>> 4 →
      Header.ReadFrom Header.zero (ofBytes (ProtocolSignature ++ vb :: pb :: rest)) =
        .fail 14 ⟨vb &&& 15, none⟩ (.unsupportedAddressFamily (pb >>> 4)) (ofBytes rest)) ∧
    (vb >>> 4 = 2 → vb &&& 15 ≤ 1 → pb >>> 4 ≤ 3 → 3 ≤ pb &&& 15 →
      Header.ReadFrom Header.zero (ofBytes (ProtocolSignature ++ vb :: pb :: rest)) =
        .fail 14 ⟨vb &&& 15, none⟩ (.unsupportedTransport (pb &&& 15)) (ofBytes rest)) := by
  have key1 := srcRead_chunk ProtocolSignature (vb :: pb :: rest) 12 (by decide)
  have key2 := srcRead_one vb (pb :: rest)
  have key3 := srcRead_one pb rest
  refine ⟨?_, ?_, ?_, ?_⟩
  · intro hv
    rw [show ofBytes (ProtocolSignature ++ vb :: pb :: rest) =
      [ProtocolSignature ++ vb :: pb :: rest] by simp [ofBytes]]
    unfold Header.ReadFrom
    rw [key1]
    simp [ofBytes_cons, key2, hv]
  · intro hv hc
    have h0 : vb &&& 15 ≠ 0 := by omega
    have h1 : vb &&& 15 ≠ 1 := by omega
    rw [show ofBytes (ProtocolSignature ++ vb :: pb :: rest) =
      [ProtocolSignature ++ vb :: pb :: rest] by simp [ofBytes]]
    unfold Header.ReadFrom
    rw [key1]
    simp [ofBytes_cons, key2, hv, h0, h1]
  · intro hv hc hf
    have hcmd : ¬(vb &&& 15 ≠ 0 ∧ vb &&& 15 ≠ 1) := by omega
    have hfam : pb >>> 4 ≠ 0 ∧ pb >>> 4 ≠ 1 ∧ pb >>> 4 ≠ 2 ∧ pb >>> 4 ≠ 3 := by omega
    rw [show ofBytes (ProtocolSignature ++ vb :: pb :: rest) =
      [ProtocolSignature ++ vb :: pb :: rest] by simp [ofBytes]]
    unfold Header.ReadFrom
    rw [key1]
    simp [ofBytes_cons, key2, key3, hv, hcmd, hfam.1, hfam.2.1, hfam.2.2.1, hfam.2.2.2, Header.zero]
  · intro hv hc hf ht
    have hcmd : ¬(vb &&& 15 ≠ 0 ∧ vb &&& 15 ≠ 1) := by omega
    have hfam : ¬(pb >>> 4 ≠ 0 ∧ pb >>> 4 ≠ 1 ∧ pb >>> 4 ≠ 2 ∧ pb >>> 4 ≠ 3) := by omega
    have htp : pb &&& 15 ≠ 0 ∧ pb &&& 15 ≠ 1 ∧ pb &&& 15 ≠ 2 := by omega
    rw [show ofBytes (ProtocolSignature ++ vb :: pb :: rest) =
      [ProtocolSignature ++ vb :: pb :: rest] by simp [ofBytes]]
    unfold Header.ReadFrom
    rw [key1]
    simp [ofBytes_cons, key2, key3, hv, hcmd, hfam, htp.1, htp.2.1, htp.2.2, Header.zero]

/-- C8 witness: version nibble 3 is rejected with an unsupported-version
error (byte 0x30), instantiating the first branch; the other branches have
false antecedents at this input. -/
theorem c8_witness :
    (0x30 < 256 ∧ (0x15 : Nat) < 256) ∧
    ((0x30 : Nat) >>> 4 ≠ 2 →
      Header.ReadFrom Header.zero (ofBytes (ProtocolSignature ++ 0x30 :: 0x15 :: [7])) =
        .fail 13 Header.zero (.unsupportedVersion ((0x30 : Nat) >>> 4)) [0x15 :: [7]]) :=
  ⟨⟨by decide, by decide⟩, (c8_reserved_nibbles_rejected 0x30 0x15 [7] (by decide) (by decide)).1⟩

/-- C10: the address length is a signed 16-bit value — any declared length
of 32768 or more decodes to a negative `AddressLength`; and when the
family/transport pair is not one of the six recognized combinations (a
valid-nibble pair with family UNSPEC or transport UNSPEC), the drain branch
runs `make([]byte, addressLength)` with that negative length and panics
after the 16 header bytes instead of returning an error. -/
theorem c10_negative_address_length_panics (pb a b : Nat) (extra : List Nat)
    (hpb : pb < 256) (ha : a < 256) (hb : b < 256)
    (hbig : 32768 ≤ be16 a b) :
    toInt16 (be16 a b) < 0 ∧
    ((pb >>> 4 = 0 ∨ pb &&& 15 = 0) → pb >>> 4 ≤ 3 → pb &&& 15 ≤ 2 →
      Header.ReadFrom Header.zero
          (ofBytes (ProtocolSignature ++ 0x21 :: pb :: a :: b :: extra)) =
        .panicked 16) := by
  have hu : be16 a b = 256 * a + b := be16_eq_of_lt a b hb
  have hub : be16 a b < 65536 := by omega
  have hlen : toInt16 (be16 a b) = (be16 a b : Int) - 65536 := by
    unfold toInt16
    rw [if_neg (by omega)]
  have hneg : toInt16 (be16 a b) < 0 := by
    rw [hlen]
    omega
  refine ⟨hneg, ?_⟩
  intro hpair hf ht
  have key1 := srcRead_chunk ProtocolSignature (0x21 :: pb :: a :: b :: extra) 12 (by decide)
  have key2 := srcRead_one 0x21 (pb :: a :: b :: extra)
  have key3 := srcRead_one pb (a :: b :: extra)
  have key4 := srcRead_two a b extra
  have hfam : ¬(pb >>> 4 ≠ 0 ∧ pb >>> 4 ≠ 1 ∧ pb >>> 4 ≠ 2 ∧ pb >>> 4 ≠ 3) := by omega
  have htp : ¬(pb &&& 15 ≠ 0 ∧ pb &&& 15 ≠ 1 ∧ pb &&& 15 ≠ 2) := by omega
  have hlz : ¬(toInt16 (be16 a b) = 0) := by omega
  have h11 : ¬(pb >>> 4 = 1 ∧ pb &&& 15 = 1) := by omega
  have h12 : ¬(pb >>> 4 = 1 ∧ pb &&& 15 = 2) := by omega
  have h21 : ¬(pb >>> 4 = 2 ∧ pb &&& 15 = 1) := by omega
  have h22 : ¬(pb >>> 4 = 2 ∧ pb &&& 15 = 2) := by omega
  have h31 : ¬(pb >>> 4 = 3 ∧ pb &&& 15 = 1) := by omega
  have h32 : ¬(pb >>> 4 = 3 ∧ pb &&& 15 = 2) := by omega
  rw [show ofBytes (ProtocolSignature ++ 0x21 :: pb :: a :: b :: extra) =
    [ProtocolSignature ++ 0x21 :: pb :: a :: b :: extra] by simp [ofBytes]]
  unfold Header.ReadFrom
  rw [key1]
  simp only [ofBytes_cons, key2, key3, key4]
  simp [dispatchAddress, hfam, htp, hlz, h11, h12, h21, h22, h31, h32, hneg]
  decide

/-- C10 witness: an UNSPEC/STREAM header with declared length 0x8000. -/
theorem c10_witness :
    ((0x01 : Nat) < 256 ∧ (0x80 : Nat) < 256 ∧ (0x00 : Nat) < 256 ∧
      32768 ≤ be16 0x80 0x00) ∧
    toInt16 (be16 0x80 0x00) < 0 ∧
    (((0x01 : Nat) >>> 4 = 0 ∨ (0x01 : Nat) &&& 15 = 0) → (0x01 : Nat) >>> 4 ≤ 3 →
      (0x01 : Nat) &&& 15 ≤ 2 →
      Header.ReadFrom Header.zero
          (ofBytes (ProtocolSignature ++ 0x21 :: 0x01 :: 0x80 :: 0x00 :: [5, 6])) =
        .panicked 16) :=
  ⟨⟨by decide, by decide, by decide, by decide⟩,
    c10_negative_address_length_panics 0x01 0x80 0x00 [5, 6]
      (by decide) (by decide) (by decide) (by decide)⟩

/-- C3 amended: for a valid-nibble pair outside the six recognized
combinations (family UNSPEC or transport UNSPEC) and a declared
AddressLength in 1..32767, decoding drains exactly AddressLength payload
bytes and then fails with the transport-protocol error carrying the family,
the transport and the declared length, leaving the source positioned right
after the drained bytes.  (Declared lengths of 32768 and above decode to a
negative int16 and panic instead — see the C10 and C3 counterexample
results.) -/
theorem c3_unrecognized_pair_drains_then_errors (pb a b : Nat)
    (payload after : List Nat)
    (hpb : pb < 256) (ha : a < 256) (hb : b < 256)
    (hpair : pb >>> 4 = 0 ∨ pb &&& 15 = 0) (hf : pb >>> 4 ≤ 3) (ht : pb &&& 15 ≤ 2)
    (hpos : 0 < be16 a b) (hsmall : be16 a b < 32768)
    (hplen : payload.length = be16 a b) :
    Header.ReadFrom Header.zero
        (ofBytes (ProtocolSignature ++ 0x21 :: pb :: a :: b :: (payload ++ after))) =
      .fail (16 + be16 a b) ⟨CommandPROXY, none⟩
        (.TransportProtocolError (pb &&& 15) (pb >>> 4) (be16 a b)) (ofBytes after) := by
  have hlen : toInt16 (be16 a b) = (be16 a b : Int) := by
    unfold toInt16
    rw [if_pos (by omega)]
  have hlz : ¬(toInt16 (be16 a b) = 0) := by omega
  have hnonneg : ¬(toInt16 (be16 a b) < 0) := by omega
  have hbz : ¬(be16 a b = 0) := by omega
  have hcastneg : ¬((be16 a b : Int) < 0) := by omega
  have key1 := srcRead_chunk ProtocolSignature
    (0x21 :: pb :: a :: b :: (payload ++ after)) 12 (by decide)
  have key2 := srcRead_one 0x21 (pb :: a :: b :: (payload ++ after))
  have key3 := srcRead_one pb (a :: b :: (payload ++ after))
  have key4 := srcRead_two a b (payload ++ after)
  have key5 : srcRead (ofBytes (payload ++ after)) (be16 a b) =
      (payload, be16 a b, ofBytes after, false) := by
    have hpne : payload ≠ [] := by
      intro hcontra
      rw [hcontra] at hplen
      simp at hplen
      omega
    rw [show ofBytes (payload ++ after) = [payload ++ after] by
      simp [ofBytes, hpne]]
    rw [srcRead_chunk payload after (be16 a b) hplen]
  have hfam : ¬(pb >>> 4 ≠ 0 ∧ pb >>> 4 ≠ 1 ∧ pb >>> 4 ≠ 2 ∧ pb >>> 4 ≠ 3) := by omega
  have htp : ¬(pb &&& 15 ≠ 0 ∧ pb &&& 15 ≠ 1 ∧ pb &&& 15 ≠ 2) := by omega
  have h11 : ¬(pb >>> 4 = 1 ∧ pb &&& 15 = 1) := by omega
  have h12 : ¬(pb >>> 4 = 1 ∧ pb &&& 15 = 2) := by omega
  have h21 : ¬(pb >>> 4 = 2 ∧ pb &&& 15 = 1) := by omega
  have h22 : ¬(pb >>> 4 = 2 ∧ pb &&& 15 = 2) := by omega
  have h31 : ¬(pb >>> 4 = 3 ∧ pb &&& 15 = 1) := by omega
  have h32 : ¬(pb >>> 4 = 3 ∧ pb &&& 15 = 2) := by omega
  rw [show ofBytes (ProtocolSignature ++ 0x21 :: pb :: a :: b :: (payload ++ after)) =
    [ProtocolSignature ++ 0x21 :: pb :: a :: b :: (payload ++ after)] by simp [ofBytes]]
  unfold Header.ReadFrom
  rw [key1]
  simp only [ofBytes_cons, key2, key3, key4]
  simp [dispatchAddress, hfam, htp, hlz, h11, h12, h21, h22, h31, h32, hnonneg,
    hbz, hcastneg, key5, hlen, Header.zero]
  rw [if_pos (show (33 : Nat) &&& 15 = CommandPROXY by decide)]
  rfl

/-- C3 witness: UNSPEC/STREAM with declared length 5 drains the 5 payload
bytes and errors, leaving the two trailing bytes unread. -/
theorem c3_witness :
    ((0x01 : Nat) < 256 ∧ (0x00 : Nat) < 256 ∧ (0x05 : Nat) < 256 ∧
      ((0x01 : Nat) >>> 4 = 0 ∨ (0x01 : Nat) &&& 15 = 0) ∧ (0x01 : Nat) >>> 4 ≤ 3 ∧
      (0x01 : Nat) &&& 15 ≤ 2 ∧ 0 < be16 0x00 0x05 ∧ be16 0x00 0x05 < 32768 ∧
      ([9, 9, 9, 9, 9] : List Nat).length = be16 0x00 0x05) ∧
    Header.ReadFrom Header.zero
        (ofBytes (ProtocolSignature ++ 0x21 :: 0x01 :: 0x00 :: 0x05 ::
          ([9, 9, 9, 9, 9] ++ [42, 43]))) =
      .fail (16 + be16 0x00 0x05) ⟨CommandPROXY, none⟩
        (.TransportProtocolError ((0x01 : Nat) &&& 15) ((0x01 : Nat) >>> 4)
          (be16 0x00 0x05)) (ofBytes [42, 43]) :=
  ⟨⟨by decide, by decide, by decide, by decide, by decide, by decide, by decide,
    by decide, by decide⟩,
    c3_unrecognized_pair_drains_then_errors 0x01 0x00 0x05 [9, 9, 9, 9, 9] [42, 43]
      (by decide) (by decide) (by decide) (by decide) (by decide) (by decide)
      (by decide) (by decide) (by decide)⟩

/-- C2 amended: the decoder performs no consistency check between the
declared AddressLength and a recognized pair's fixed wire size.  For an
INET/STREAM header with any nonzero declared length (including lengths
different from the fixed size 12), it reads exactly the fixed 12 payload
bytes, succeeds with the decoded IPv4 endpoints, and reports 28 bytes
consumed — no length-mismatch error exists in the code. -/
theorem c2_recognized_pair_ignores_declared_length
    (a b i1 i2 i3 i4 j1 j2 j3 j4 x1 x2 y1 y2 : Nat) (extra : List Nat)
    (ha : a < 256) (hb : b < 256) (hnz : ¬(a = 0 ∧ b = 0)) :
    Header.ReadFrom Header.zero
        (ofBytes (ProtocolSignature ++ 0x21 :: 0x11 :: a :: b ::
          (i1 :: i2 :: i3 :: i4 :: j1 :: j2 :: j3 :: j4 :: x1 :: x2 :: y1 :: y2 :: extra))) =
      .ok 28 ⟨CommandPROXY, some (.IPv4Address
          (.TCPAddr [i1, i2, i3, i4] (be16 x1 x2 : Int))
          (.TCPAddr [j1, j2, j3, j4] (be16 y1 y2 : Int)))⟩
        (ofBytes extra) := by
  have hu : be16 a b = 256 * a + b := be16_eq_of_lt a b hb
  have hlz : ¬(toInt16 (be16 a b) = 0) := by
    unfold toInt16
    split <;> omega
  have key1 := srcRead_chunk ProtocolSignature
    (0x21 :: 0x11 :: a :: b ::
      (i1 :: i2 :: i3 :: i4 :: j1 :: j2 :: j3 :: j4 :: x1 :: x2 :: y1 :: y2 :: extra))
    12 (by decide)
  have key2 := srcRead_one 0x21 (0x11 :: a :: b ::
    (i1 :: i2 :: i3 :: i4 :: j1 :: j2 :: j3 :: j4 :: x1 :: x2 :: y1 :: y2 :: extra))
  have key3 := srcRead_one 0x11 (a :: b ::
    (i1 :: i2 :: i3 :: i4 :: j1 :: j2 :: j3 :: j4 :: x1 :: x2 :: y1 :: y2 :: extra))
  have key4 := srcRead_two a b
    (i1 :: i2 :: i3 :: i4 :: j1 :: j2 :: j3 :: j4 :: x1 :: x2 :: y1 :: y2 :: extra)
  have key5 := srcRead_four i1 i2 i3 i4
    (j1 :: j2 :: j3 :: j4 :: x1 :: x2 :: y1 :: y2 :: extra)
  have key6 := srcRead_four j1 j2 j3 j4 (x1 :: x2 :: y1 :: y2 :: extra)
  have key7 := srcRead_two x1 x2 (y1 :: y2 :: extra)
  have key8 := srcRead_two y1 y2 extra
  rw [show ofBytes (ProtocolSignature ++ 0x21 :: 0x11 :: a :: b ::
      (i1 :: i2 :: i3 :: i4 :: j1 :: j2 :: j3 :: j4 :: x1 :: x2 :: y1 :: y2 :: extra)) =
    [ProtocolSignature ++ 0x21 :: 0x11 :: a :: b ::
      (i1 :: i2 :: i3 :: i4 :: j1 :: j2 :: j3 :: j4 :: x1 :: x2 :: y1 :: y2 :: extra)]
    by simp [ofBytes]]
  unfold Header.ReadFrom
  rw [key1]
  simp only [ofBytes_cons, key2, key3, key4]
  simp only [dispatchAddress, readIPsAndPorts, readIP, readPort, ofBytes_cons,
    key5, key6, key7, key8]
  simp [hlz, Header.zero, show (33 : Nat) &&& 15 = 1 by decide,
    show (17 : Nat) >>> 4 = 1 by decide, show (17 : Nat) &&& 15 = 1 by decide]

/-- C2 witness: declared length 10 against the fixed size 12. -/
theorem c2_witness :
    ((0x00 : Nat) < 256 ∧ (0x0A : Nat) < 256 ∧ ¬((0x00 : Nat) = 0 ∧ (0x0A : Nat) = 0)) ∧
    Header.ReadFrom Header.zero
        (ofBytes (ProtocolSignature ++ 0x21 :: 0x11 :: 0x00 :: 0x0A ::
          (0x7F :: 0x00 :: 0x00 :: 0x01 :: 0x7F :: 0x00 :: 0x00 :: 0x01 ::
           0xA5 :: 0xCE :: 0x05 :: 0x3A :: []))) =
      .ok 28 ⟨CommandPROXY, some (.IPv4Address
          (.TCPAddr [0x7F, 0x00, 0x00, 0x01] (be16 0xA5 0xCE : Int))
          (.TCPAddr [0x7F, 0x00, 0x00, 0x01] (be16 0x05 0x3A : Int)))⟩
        (ofBytes []) :=
  ⟨⟨by decide, by decide, by decide⟩,
    c2_recognized_pair_ignores_declared_length 0x00 0x0A 0x7F 0x00 0x00 0x01
      0x7F 0x00 0x00 0x01 0xA5 0xCE 0x05 0x3A [] (by decide) (by decide) (by decide)⟩

/-- A canonical ("valid") address variant in the sense of the spec's data
model: IPv4 endpoints are two same-kind addresses with 4-byte IPs, IPv6
endpoints two same-kind addresses with 16-byte IPs, ports lie in 0..65535,
and UNIX endpoints carry exactly-108-byte names with a matching network tag
that decode can reproduce ("unixpacket" for stream, "unixgram" for
datagram). -/
def validProxyAddress : ProxyAddress → Bool
  | .IPv4Address (.TCPAddr ip1 p1) (.TCPAddr ip2 p2) =>
      ip1.length == 4 && ip2.length == 4 &&
      decide (0 ≤ p1) && decide (p1 < 65536) && decide (0 ≤ p2) && decide (p2 < 65536)
  | .IPv4Address (.UDPAddr ip1 p1) (.UDPAddr ip2 p2) =>
      ip1.length == 4 && ip2.length == 4 &&
      decide (0 ≤ p1) && decide (p1 < 65536) && decide (0 ≤ p2) && decide (p2 < 65536)
  | .IPv6Address (.TCPAddr ip1 p1) (.TCPAddr ip2 p2) =>
      ip1.length == 16 && ip2.length == 16 &&
      decide (0 ≤ p1) && decide (p1 < 65536) && decide (0 ≤ p2) && decide (p2 < 65536)
  | .IPv6Address (.UDPAddr ip1 p1) (.UDPAddr ip2 p2) =>
      ip1.length == 16 && ip2.length == 16 &&
      decide (0 ≤ p1) && decide (p1 < 65536) && decide (0 ≤ p2) && decide (p2 < 65536)
  | .UnixAddr u1 u2 =>
      u1.Name.length == 108 && u2.Name.length == 108 && (u1.Net == u2.Net) &&
      (u1.Net == "unixpacket" || u1.Net == "unixgram")
  | _ => false

/-- A 4-byte IP is left-padded to 16 by `alignIP`; dropping the padding
recovers it. -/
theorem alignIP_drop_of_length4 (ip : List Nat) (h : ip.length = 4) :
    (alignIP ip).drop 12 = ip := by
  unfold alignIP
  rw [if_pos (by omega)]
  exact List.drop_left' (by simp [h])

/-- A 16-byte IP passes through `alignIP` unchanged. -/
theorem alignIP_of_length16 (ip : List Nat) (h : ip.length = 16) :
    alignIP ip = ip := by
  unfold alignIP
  rw [if_neg (by omega)]

/-- A 108-byte UNIX name is written verbatim by `addressToBytes`. -/
theorem addressToBytes_unix_of_length (u : GoUnixAddr) (h : u.Name.length = 108) :
    addressToBytes (.UnixAddr u) = u.Name := by
  show u.Name.take 108 ++ List.replicate (108 - (u.Name.take 108).length) 0 = u.Name
  rw [List.take_of_length_le (by omega)]
  simp [h]

/-- Reading back the two big-endian bytes of a 16-bit value recovers it. -/
theorem u16be_decode (g : Nat) (h : g < 65536) :
    be16 ((g >>> 8) % 256) (g % 256) = g := by
  rw [be16_eq_of_lt _ _ (Nat.mod_lt _ (by norm_num))]
  rw [Nat.shiftRight_eq_div_pow]
  rw [show (2 : Nat) ^ 8 = 256 from rfl]
  omega

/-- C1 amended: the round trip holds for PROXY headers carrying a canonical
variant: for every address variant accepted by `validProxyAddress`,
encoding the PROXY header and decoding the produced bytes returns the
original header with no error, consuming the whole output.  (The LOCAL half
of the original claim fails: encoding LOCAL with no variant panics on the
nil interface, and encoding LOCAL with a variant writes a zero address
length so the variant is lost on decode — see the C1 counterexample.) -/
theorem c1_roundtrip_proxy (pa : ProxyAddress) (h : validProxyAddress pa = true) :
    ∃ out : List Nat,
      Header.WriteTo ⟨CommandPROXY, some pa⟩ = .ok out ∧
      Header.ReadFrom Header.zero (ofBytes out) =
        .ok out.length ⟨CommandPROXY, some pa⟩ [] := by
  obtain ⟨src, dst⟩ | ⟨src, dst⟩ | ⟨u1, u2⟩ := pa
  · obtain ⟨ip1, p1⟩ | ⟨ip1, p1⟩ | u1 := src <;> obtain ⟨ip2, p2⟩ | ⟨ip2, p2⟩ | u2 := dst <;>
      simp only [validProxyAddress, Bool.and_eq_true, beq_iff_eq, decide_eq_true_eq,
        Bool.false_eq_true] at h
    · obtain ⟨⟨⟨⟨⟨h1, h2⟩, hp1a⟩, hp1b⟩, hp2a⟩, hp2b⟩ := h
      have hm1 : p1 % 65536 = p1 := Int.emod_eq_of_lt hp1a hp1b
      have hm2 : p2 % 65536 = p2 := Int.emod_eq_of_lt hp2a hp2b
      have hip1ne : ip1 ≠ [] := by intro hc; rw [hc] at h1; simp at h1
      have hip2ne : ip2 ≠ [] := by intro hc; rw [hc] at h2; simp at h2
      refine ⟨ProtocolSignature ++ 0x21 :: 0x11 :: 0x00 :: 0x0C :: (ip1 ++ (ip2 ++ ((p1.toNat >>> 8 % 256) :: (p1.toNat % 256) :: (p2.toNat >>> 8 % 256) :: (p2.toNat % 256) :: []))), ?_, ?_⟩
      · simp [Header.WriteTo, ProxyAddress.getSignature, getTransportProtocol,
          ProxyAddress.getLength, ProxyAddress.WriteTo, writePorts, getPort,
          u16beBytes, addressLengthBytes, hm1, hm2, addressToBytes,
          alignIP_drop_of_length4 _ h1, alignIP_drop_of_length4 _ h2]
        decide
      · have key1 := srcRead_chunk ProtocolSignature
          (0x21 :: 0x11 :: 0x00 :: 0x0C :: (ip1 ++ (ip2 ++ ((p1.toNat >>> 8 % 256) :: (p1.toNat % 256) :: (p2.toNat >>> 8 % 256) :: (p2.toNat % 256) :: [])))) 12 (by decide)
        have key2 := srcRead_one 0x21 (0x11 :: 0x00 :: 0x0C :: (ip1 ++ (ip2 ++ ((p1.toNat >>> 8 % 256) :: (p1.toNat % 256) :: (p2.toNat >>> 8 % 256) :: (p2.toNat % 256) :: []))))
        have key3 := srcRead_one 0x11 (0x00 :: 0x0C :: (ip1 ++ (ip2 ++ ((p1.toNat >>> 8 % 256) :: (p1.toNat % 256) :: (p2.toNat >>> 8 % 256) :: (p2.toNat % 256) :: []))))
        have key4 := srcRead_two 0x00 0x0C (ip1 ++ (ip2 ++ ((p1.toNat >>> 8 % 256) :: (p1.toNat % 256) :: (p2.toNat >>> 8 % 256) :: (p2.toNat % 256) :: [])))
        have key5 : srcRead (ofBytes (ip1 ++ (ip2 ++ ((p1.toNat >>> 8 % 256) :: (p1.toNat % 256) :: (p2.toNat >>> 8 % 256) :: (p2.toNat % 256) :: [])))) 4 =
            (ip1, 4, ofBytes (ip2 ++ ((p1.toNat >>> 8 % 256) :: (p1.toNat % 256) :: (p2.toNat >>> 8 % 256) :: (p2.toNat % 256) :: [])), false) := by
          rw [show ofBytes (ip1 ++ (ip2 ++ ((p1.toNat >>> 8 % 256) :: (p1.toNat % 256) :: (p2.toNat >>> 8 % 256) :: (p2.toNat % 256) :: []))) = [(ip1 ++ (ip2 ++ ((p1.toNat >>> 8 % 256) :: (p1.toNat % 256) :: (p2.toNat >>> 8 % 256) :: (p2.toNat % 256) :: [])))] from by simp [ofBytes, hip1ne]]
          exact srcRead_chunk ip1 _ 4 h1
        have key6 : srcRead (ofBytes (ip2 ++ ((p1.toNat >>> 8 % 256) :: (p1.toNat % 256) :: (p2.toNat >>> 8 % 256) :: (p2.toNat % 256) :: []))) 4 =
            (ip2, 4, ofBytes ((p1.toNat >>> 8 % 256) :: (p1.toNat % 256) :: (p2.toNat >>> 8 % 256) :: (p2.toNat % 256) :: []), false) := by
          rw [show ofBytes (ip2 ++ ((p1.toNat >>> 8 % 256) :: (p1.toNat % 256) :: (p2.toNat >>> 8 % 256) :: (p2.toNat % 256) :: [])) = [ip2 ++ ((p1.toNat >>> 8 % 256) :: (p1.toNat % 256) :: (p2.toNat >>> 8 % 256) :: (p2.toNat % 256) :: [])] from by simp [ofBytes, hip2ne]]
          exact srcRead_chunk ip2 _ 4 h2
        have key7 := srcRead_two (p1.toNat >>> 8 % 256) (p1.toNat % 256)
          ((p2.toNat >>> 8 % 256) :: (p2.toNat % 256) :: [])
        have key8 := srcRead_two (p2.toNat >>> 8 % 256) (p2.toNat % 256) []
        have hport1 : be16 (p1.toNat >>> 8 % 256) (p1.toNat % 256) = p1.toNat :=
          u16be_decode p1.toNat (by omega)
        have hport2 : be16 (p2.toNat >>> 8 % 256) (p2.toNat % 256) = p2.toNat :=
          u16be_decode p2.toNat (by omega)
        rw [show ofBytes (ProtocolSignature ++ 0x21 :: 0x11 :: 0x00 :: 0x0C :: (ip1 ++ (ip2 ++ ((p1.toNat >>> 8 % 256) :: (p1.toNat % 256) :: (p2.toNat >>> 8 % 256) :: (p2.toNat % 256) :: [])))) =
          [ProtocolSignature ++ 0x21 :: 0x11 :: 0x00 :: 0x0C :: (ip1 ++ (ip2 ++ ((p1.toNat >>> 8 % 256) :: (p1.toNat % 256) :: (p2.toNat >>> 8 % 256) :: (p2.toNat % 256) :: [])))] from by simp [ofBytes]]
        unfold Header.ReadFrom
        rw [key1]
        simp only [ofBytes_cons, key2, key3, key4]
        simp only [dispatchAddress, readIPsAndPorts, readIP, readPort, ofBytes_cons,
          key5, key6, key7, key8]
        simp [Header.zero, hport1, hport2, Int.toNat_of_nonneg hp1a, Int.toNat_of_nonneg hp2a,
          h1, h2, show (33 : Nat) &&& 15 = 1 by decide,
          show (17 : Nat) >>> 4 = 1 by decide,
          show (17 : Nat) &&& 15 = 1 by decide,
          show toInt16 (be16 0 12) = 12 by decide]
        decide
    · obtain ⟨⟨⟨⟨⟨h1, h2⟩, hp1a⟩, hp1b⟩, hp2a⟩, hp2b⟩ := h
      have hm1 : p1 % 65536 = p1 := Int.emod_eq_of_lt hp1a hp1b
      have hm2 : p2 % 65536 = p2 := Int.emod_eq_of_lt hp2a hp2b
      have hip1ne : ip1 ≠ [] := by intro hc; rw [hc] at h1; simp at h1
      have hip2ne : ip2 ≠ [] := by intro hc; rw [hc] at h2; simp at h2
      refine ⟨ProtocolSignature ++ 0x21 :: 0x12 :: 0x00 :: 0x0C :: (ip1 ++ (ip2 ++ ((p1.toNat >>> 8 % 256) :: (p1.toNat % 256) :: (p2.toNat >>> 8 % 256) :: (p2.toNat % 256) :: []))), ?_, ?_⟩
      · simp [Header.WriteTo, ProxyAddress.getSignature, getTransportProtocol,
          ProxyAddress.getLength, ProxyAddress.WriteTo, writePorts, getPort,
          u16beBytes, addressLengthBytes, hm1, hm2, addressToBytes,
          alignIP_drop_of_length4 _ h1, alignIP_drop_of_length4 _ h2]
        decide
      · have key1 := srcRead_chunk ProtocolSignature
          (0x21 :: 0x12 :: 0x00 :: 0x0C :: (ip1 ++ (ip2 ++ ((p1.toNat >>> 8 % 256) :: (p1.toNat % 256) :: (p2.toNat >>> 8 % 256) :: (p2.toNat % 256) :: [])))) 12 (by decide)
        have key2 := srcRead_one 0x21 (0x12 :: 0x00 :: 0x0C :: (ip1 ++ (ip2 ++ ((p1.toNat >>> 8 % 256) :: (p1.toNat % 256) :: (p2.toNat >>> 8 % 256) :: (p2.toNat % 256) :: []))))
        have key3 := srcRead_one 0x12 (0x00 :: 0x0C :: (ip1 ++ (ip2 ++ ((p1.toNat >>> 8 % 256) :: (p1.toNat % 256) :: (p2.toNat >>> 8 % 256) :: (p2.toNat % 256) :: []))))
        have key4 := srcRead_two 0x00 0x0C (ip1 ++ (ip2 ++ ((p1.toNat >>> 8 % 256) :: (p1.toNat % 256) :: (p2.toNat >>> 8 % 256) :: (p2.toNat % 256) :: [])))
        have key5 : srcRead (ofBytes (ip1 ++ (ip2 ++ ((p1.toNat >>> 8 % 256) :: (p1.toNat % 256) :: (p2.toNat >>> 8 % 256) :: (p2.toNat % 256) :: [])))) 4 =
            (ip1, 4, ofBytes (ip2 ++ ((p1.toNat >>> 8 % 256) :: (p1.toNat % 256) :: (p2.toNat >>> 8 % 256) :: (p2.toNat % 256) :: [])), false) := by
          rw [show ofBytes (ip1 ++ (ip2 ++ ((p1.toNat >>> 8 % 256) :: (p1.toNat % 256) :: (p2.toNat >>> 8 % 256) :: (p2.toNat % 256) :: []))) = [(ip1 ++ (ip2 ++ ((p1.toNat >>> 8 % 256) :: (p1.toNat % 256) :: (p2.toNat >>> 8 % 256) :: (p2.toNat % 256) :: [])))] from by simp [ofBytes, hip1ne]]
          exact srcRead_chunk ip1 _ 4 h1
        have key6 : srcRead (ofBytes (ip2 ++ ((p1.toNat >>> 8 % 256) :: (p1.toNat % 256) :: (p2.toNat >>> 8 % 256) :: (p2.toNat % 256) :: []))) 4 =
            (ip2, 4, ofBytes ((p1.toNat >>> 8 % 256) :: (p1.toNat % 256) :: (p2.toNat >>> 8 % 256) :: (p2.toNat % 256) :: []), false) := by
          rw [show ofBytes (ip2 ++ ((p1.toNat >>> 8 % 256) :: (p1.toNat % 256) :: (p2.toNat >>> 8 % 256) :: (p2.toNat % 256) :: [])) = [ip2 ++ ((p1.toNat >>> 8 % 256) :: (p1.toNat % 256) :: (p2.toNat >>> 8 % 256) :: (p2.toNat % 256) :: [])] from by simp [ofBytes, hip2ne]]
          exact srcRead_chunk ip2 _ 4 h2
        have key7 := srcRead_two (p1.toNat >>> 8 % 256) (p1.toNat % 256)
          ((p2.toNat >>> 8 % 256) :: (p2.toNat % 256) :: [])
        have key8 := srcRead_two (p2.toNat >>> 8 % 256) (p2.toNat % 256) []
        have hport1 : be16 (p1.toNat >>> 8 % 256) (p1.toNat % 256) = p1.toNat :=
          u16be_decode p1.toNat (by omega)
        have hport2 : be16 (p2.toNat >>> 8 % 256) (p2.toNat % 256) = p2.toNat :=
          u16be_decode p2.toNat (by omega)
        rw [show ofBytes (ProtocolSignature ++ 0x21 :: 0x12 :: 0x00 :: 0x0C :: (ip1 ++ (ip2 ++ ((p1.toNat >>> 8 % 256) :: (p1.toNat % 256) :: (p2.toNat >>> 8 % 256) :: (p2.toNat % 256) :: [])))) =
          [ProtocolSignature ++ 0x21 :: 0x12 :: 0x00 :: 0x0C :: (ip1 ++ (ip2 ++ ((p1.toNat >>> 8 % 256) :: (p1.toNat % 256) :: (p2.toNat >>> 8 % 256) :: (p2.toNat % 256) :: [])))] from by simp [ofBytes]]
        unfold Header.ReadFrom
        rw [key1]
        simp only [ofBytes_cons, key2, key3, key4]
        simp only [dispatchAddress, readIPsAndPorts, readIP, readPort, ofBytes_cons,
          key5, key6, key7, key8]
        simp [Header.zero, hport1, hport2, Int.toNat_of_nonneg hp1a, Int.toNat_of_nonneg hp2a,
          h1, h2, show (33 : Nat) &&& 15 = 1 by decide,
          show (18 : Nat) >>> 4 = 1 by decide,
          show (18 : Nat) &&& 15 = 2 by decide,
          show toInt16 (be16 0 12) = 12 by decide]
        decide
  · obtain ⟨ip1, p1⟩ | ⟨ip1, p1⟩ | u1 := src <;> obtain ⟨ip2, p2⟩ | ⟨ip2, p2⟩ | u2 := dst <;>
      simp only [validProxyAddress, Bool.and_eq_true, beq_iff_eq, decide_eq_true_eq,
        Bool.false_eq_true] at h
    · obtain ⟨⟨⟨⟨⟨h1, h2⟩, hp1a⟩, hp1b⟩, hp2a⟩, hp2b⟩ := h
      have hm1 : p1 % 65536 = p1 := Int.emod_eq_of_lt hp1a hp1b
      have hm2 : p2 % 65536 = p2 := Int.emod_eq_of_lt hp2a hp2b
      have hip1ne : ip1 ≠ [] := by intro hc; rw [hc] at h1; simp at h1
      have hip2ne : ip2 ≠ [] := by intro hc; rw [hc] at h2; simp at h2
      refine ⟨ProtocolSignature ++ 0x21 :: 0x21 :: 0x00 :: 0x24 :: (ip1 ++ (ip2 ++ ((p1.toNat >>> 8 % 256) :: (p1.toNat % 256) :: (p2.toNat >>> 8 % 256) :: (p2.toNat % 256) :: []))), ?_, ?_⟩
      · simp [Header.WriteTo, ProxyAddress.getSignature, getTransportProtocol,
          ProxyAddress.getLength, ProxyAddress.WriteTo, writePorts, getPort,
          u16beBytes, addressLengthBytes, hm1, hm2, addressToBytes,
          alignIP_of_length16 _ h1, alignIP_of_length16 _ h2]
        decide
      · have key1 := srcRead_chunk ProtocolSignature
          (0x21 :: 0x21 :: 0x00 :: 0x24 :: (ip1 ++ (ip2 ++ ((p1.toNat >>> 8 % 256) :: (p1.toNat % 256) :: (p2.toNat >>> 8 % 256) :: (p2.toNat % 256) :: [])))) 12 (by decide)
        have key2 := srcRead_one 0x21 (0x21 :: 0x00 :: 0x24 :: (ip1 ++ (ip2 ++ ((p1.toNat >>> 8 % 256) :: (p1.toNat % 256) :: (p2.toNat >>> 8 % 256) :: (p2.toNat % 256) :: []))))
        have key3 := srcRead_one 0x21 (0x00 :: 0x24 :: (ip1 ++ (ip2 ++ ((p1.toNat >>> 8 % 256) :: (p1.toNat % 256) :: (p2.toNat >>> 8 % 256) :: (p2.toNat % 256) :: []))))
        have key4 := srcRead_two 0x00 0x24 (ip1 ++ (ip2 ++ ((p1.toNat >>> 8 % 256) :: (p1.toNat % 256) :: (p2.toNat >>> 8 % 256) :: (p2.toNat % 256) :: [])))
        have key5 : srcRead (ofBytes (ip1 ++ (ip2 ++ ((p1.toNat >>> 8 % 256) :: (p1.toNat % 256) :: (p2.toNat >>> 8 % 256) :: (p2.toNat % 256) :: [])))) 16 =
            (ip1, 16, ofBytes (ip2 ++ ((p1.toNat >>> 8 % 256) :: (p1.toNat % 256) :: (p2.toNat >>> 8 % 256) :: (p2.toNat % 256) :: [])), false) := by
          rw [show ofBytes (ip1 ++ (ip2 ++ ((p1.toNat >>> 8 % 256) :: (p1.toNat % 256) :: (p2.toNat >>> 8 % 256) :: (p2.toNat % 256) :: []))) = [(ip1 ++ (ip2 ++ ((p1.toNat >>> 8 % 256) :: (p1.toNat % 256) :: (p2.toNat >>> 8 % 256) :: (p2.toNat % 256) :: [])))] from by simp [ofBytes, hip1ne]]
          exact srcRead_chunk ip1 _ 16 h1
        have key6 : srcRead (ofBytes (ip2 ++ ((p1.toNat >>> 8 % 256) :: (p1.toNat % 256) :: (p2.toNat >>> 8 % 256) :: (p2.toNat % 256) :: []))) 16 =
            (ip2, 16, ofBytes ((p1.toNat >>> 8 % 256) :: (p1.toNat % 256) :: (p2.toNat >>> 8 % 256) :: (p2.toNat % 256) :: []), false) := by
          rw [show ofBytes (ip2 ++ ((p1.toNat >>> 8 % 256) :: (p1.toNat % 256) :: (p2.toNat >>> 8 % 256) :: (p2.toNat % 256) :: [])) = [ip2 ++ ((p1.toNat >>> 8 % 256) :: (p1.toNat % 256) :: (p2.toNat >>> 8 % 256) :: (p2.toNat % 256) :: [])] from by simp [ofBytes, hip2ne]]
          exact srcRead_chunk ip2 _ 16 h2
        have key7 := srcRead_two (p1.toNat >>> 8 % 256) (p1.toNat % 256)
          ((p2.toNat >>> 8 % 256) :: (p2.toNat % 256) :: [])
        have key8 := srcRead_two (p2.toNat >>> 8 % 256) (p2.toNat % 256) []
        have hport1 : be16 (p1.toNat >>> 8 % 256) (p1.toNat % 256) = p1.toNat :=
          u16be_decode p1.toNat (by omega)
        have hport2 : be16 (p2.toNat >>> 8 % 256) (p2.toNat % 256) = p2.toNat :=
          u16be_decode p2.toNat (by omega)
        rw [show ofBytes (ProtocolSignature ++ 0x21 :: 0x21 :: 0x00 :: 0x24 :: (ip1 ++ (ip2 ++ ((p1.toNat >>> 8 % 256) :: (p1.toNat % 256) :: (p2.toNat >>> 8 % 256) :: (p2.toNat % 256) :: [])))) =
          [ProtocolSignature ++ 0x21 :: 0x21 :: 0x00 :: 0x24 :: (ip1 ++ (ip2 ++ ((p1.toNat >>> 8 % 256) :: (p1.toNat % 256) :: (p2.toNat >>> 8 % 256) :: (p2.toNat % 256) :: [])))] from by simp [ofBytes]]
        unfold Header.ReadFrom
        rw [key1]
        simp only [ofBytes_cons, key2, key3, key4]
        simp only [dispatchAddress, readIPsAndPorts, readIP, readPort, ofBytes_cons,
          key5, key6, key7, key8]
        simp [Header.zero, hport1, hport2, Int.toNat_of_nonneg hp1a, Int.toNat_of_nonneg hp2a,
          h1, h2, show (33 : Nat) &&& 15 = 1 by decide,
          show (33 : Nat) >>> 4 = 2 by decide,
          show (33 : Nat) &&& 15 = 1 by decide,
          show toInt16 (be16 0 36) = 36 by decide]
        decide
    · obtain ⟨⟨⟨⟨⟨h1, h2⟩, hp1a⟩, hp1b⟩, hp2a⟩, hp2b⟩ := h
      have hm1 : p1 % 65536 = p1 := Int.emod_eq_of_lt hp1a hp1b
      have hm2 : p2 % 65536 = p2 := Int.emod_eq_of_lt hp2a hp2b
      have hip1ne : ip1 ≠ [] := by intro hc; rw [hc] at h1; simp at h1
      have hip2ne : ip2 ≠ [] := by intro hc; rw [hc] at h2; simp at h2
      refine ⟨ProtocolSignature ++ 0x21 :: 0x22 :: 0x00 :: 0x24 :: (ip1 ++ (ip2 ++ ((p1.toNat >>> 8 % 256) :: (p1.toNat % 256) :: (p2.toNat >>> 8 % 256) :: (p2.toNat % 256) :: []))), ?_, ?_⟩
      · simp [Header.WriteTo, ProxyAddress.getSignature, getTransportProtocol,
          ProxyAddress.getLength, ProxyAddress.WriteTo, writePorts, getPort,
          u16beBytes, addressLengthBytes, hm1, hm2, addressToBytes,
          alignIP_of_length16 _ h1, alignIP_of_length16 _ h2]
        decide
      · have key1 := srcRead_chunk ProtocolSignature
          (0x21 :: 0x22 :: 0x00 :: 0x24 :: (ip1 ++ (ip2 ++ ((p1.toNat >>> 8 % 256) :: (p1.toNat % 256) :: (p2.toNat >>> 8 % 256) :: (p2.toNat % 256) :: [])))) 12 (by decide)
        have key2 := srcRead_one 0x21 (0x22 :: 0x00 :: 0x24 :: (ip1 ++ (ip2 ++ ((p1.toNat >>> 8 % 256) :: (p1.toNat % 256) :: (p2.toNat >>> 8 % 256) :: (p2.toNat % 256) :: []))))
        have key3 := srcRead_one 0x22 (0x00 :: 0x24 :: (ip1 ++ (ip2 ++ ((p1.toNat >>> 8 % 256) :: (p1.toNat % 256) :: (p2.toNat >>> 8 % 256) :: (p2.toNat % 256) :: []))))
        have key4 := srcRead_two 0x00 0x24 (ip1 ++ (ip2 ++ ((p1.toNat >>> 8 % 256) :: (p1.toNat % 256) :: (p2.toNat >>> 8 % 256) :: (p2.toNat % 256) :: [])))
        have key5 : srcRead (ofBytes (ip1 ++ (ip2 ++ ((p1.toNat >>> 8 % 256) :: (p1.toNat % 256) :: (p2.toNat >>> 8 % 256) :: (p2.toNat % 256) :: [])))) 16 =
            (ip1, 16, ofBytes (ip2 ++ ((p1.toNat >>> 8 % 256) :: (p1.toNat % 256) :: (p2.toNat >>> 8 % 256) :: (p2.toNat % 256) :: [])), false) := by
          rw [show ofBytes (ip1 ++ (ip2 ++ ((p1.toNat >>> 8 % 256) :: (p1.toNat % 256) :: (p2.toNat >>> 8 % 256) :: (p2.toNat % 256) :: []))) = [(ip1 ++ (ip2 ++ ((p1.toNat >>> 8 % 256) :: (p1.toNat % 256) :: (p2.toNat >>> 8 % 256) :: (p2.toNat % 256) :: [])))] from by simp [ofBytes, hip1ne]]
          exact srcRead_chunk ip1 _ 16 h1
        have key6 : srcRead (ofBytes (ip2 ++ ((p1.toNat >>> 8 % 256) :: (p1.toNat % 256) :: (p2.toNat >>> 8 % 256) :: (p2.toNat % 256) :: []))) 16 =
            (ip2, 16, ofBytes ((p1.toNat >>> 8 % 256) :: (p1.toNat % 256) :: (p2.toNat >>> 8 % 256) :: (p2.toNat % 256) :: []), false) := by
          rw [show ofBytes (ip2 ++ ((p1.toNat >>> 8 % 256) :: (p1.toNat % 256) :: (p2.toNat >>> 8 % 256) :: (p2.toNat % 256) :: [])) = [ip2 ++ ((p1.toNat >>> 8 % 256) :: (p1.toNat % 256) :: (p2.toNat >>> 8 % 256) :: (p2.toNat % 256) :: [])] from by simp [ofBytes, hip2ne]]
          exact srcRead_chunk ip2 _ 16 h2
        have key7 := srcRead_two (p1.toNat >>> 8 % 256) (p1.toNat % 256)
          ((p2.toNat >>> 8 % 256) :: (p2.toNat % 256) :: [])
        have key8 := srcRead_two (p2.toNat >>> 8 % 256) (p2.toNat % 256) []
        have hport1 : be16 (p1.toNat >>> 8 % 256) (p1.toNat % 256) = p1.toNat :=
          u16be_decode p1.toNat (by omega)
        have hport2 : be16 (p2.toNat >>> 8 % 256) (p2.toNat % 256) = p2.toNat :=
          u16be_decode p2.toNat (by omega)
        rw [show ofBytes (ProtocolSignature ++ 0x21 :: 0x22 :: 0x00 :: 0x24 :: (ip1 ++ (ip2 ++ ((p1.toNat >>> 8 % 256) :: (p1.toNat % 256) :: (p2.toNat >>> 8 % 256) :: (p2.toNat % 256) :: [])))) =
          [ProtocolSignature ++ 0x21 :: 0x22 :: 0x00 :: 0x24 :: (ip1 ++ (ip2 ++ ((p1.toNat >>> 8 % 256) :: (p1.toNat % 256) :: (p2.toNat >>> 8 % 256) :: (p2.toNat % 256) :: [])))] from by simp [ofBytes]]
        unfold Header.ReadFrom
        rw [key1]
        simp only [ofBytes_cons, key2, key3, key4]
        simp only [dispatchAddress, readIPsAndPorts, readIP, readPort, ofBytes_cons,
          key5, key6, key7, key8]
        simp [Header.zero, hport1, hport2, Int.toNat_of_nonneg hp1a, Int.toNat_of_nonneg hp2a,
          h1, h2, show (33 : Nat) &&& 15 = 1 by decide,
          show (34 : Nat) >>> 4 = 2 by decide,
          show (34 : Nat) &&& 15 = 2 by decide,
          show toInt16 (be16 0 36) = 36 by decide]
        decide
  · obtain ⟨n1, t1⟩ := u1
    obtain ⟨n2, t2⟩ := u2
    simp only [validProxyAddress, Bool.and_eq_true, Bool.or_eq_true, beq_iff_eq] at h
    obtain ⟨⟨⟨h1, h2⟩, hteq⟩, hnet⟩ := h
    subst hteq
    have hn1ne : n1 ≠ [] := by intro hc; rw [hc] at h1; simp at h1
    have hn2ne : n2 ≠ [] := by intro hc; rw [hc] at h2; simp at h2
    obtain hnet | hnet := hnet <;> subst hnet
    · refine ⟨ProtocolSignature ++ 0x21 :: 0x31 :: 0x00 :: 0xD8 :: (n1 ++ n2), ?_, ?_⟩
      · simp [Header.WriteTo, ProxyAddress.getSignature, getTransportProtocol,
          ProxyAddress.getLength, ProxyAddress.WriteTo, addressLengthBytes, u16beBytes,
          addressToBytes_unix_of_length ⟨n1, "unixpacket"⟩ h1,
          addressToBytes_unix_of_length ⟨n2, "unixpacket"⟩ h2]
        decide
      · have key1 := srcRead_chunk ProtocolSignature
          (0x21 :: 0x31 :: 0x00 :: 0xD8 :: (n1 ++ n2)) 12 (by decide)
        have key2 := srcRead_one 0x21 (0x31 :: 0x00 :: 0xD8 :: (n1 ++ n2))
        have key3 := srcRead_one 0x31 (0x00 :: 0xD8 :: (n1 ++ n2))
        have key4 := srcRead_two 0x00 0xD8 (n1 ++ n2)
        have key5 : srcRead (ofBytes (n1 ++ n2)) 108 = (n1, 108, ofBytes n2, false) := by
          rw [show ofBytes (n1 ++ n2) = [n1 ++ n2] from by simp [ofBytes, hn1ne]]
          exact srcRead_chunk n1 n2 108 h1
        have key6 : srcRead (ofBytes n2) 108 = (n2, 108, [], false) := by
          rw [show ofBytes n2 = [n2] from by simp [ofBytes, hn2ne]]
          exact srcRead_chunk_all n2 108 h2
        rw [show ofBytes (ProtocolSignature ++ 0x21 :: 0x31 :: 0x00 :: 0xD8 :: (n1 ++ n2)) =
          [ProtocolSignature ++ 0x21 :: 0x31 :: 0x00 :: 0xD8 :: (n1 ++ n2)] from by simp [ofBytes]]
        unfold Header.ReadFrom
        rw [key1]
        simp only [ofBytes_cons, key2, key3, key4]
        simp only [dispatchAddress, readUnix, ofBytes_cons, key5, key6]
        simp [Header.zero, h1, h2, show (33 : Nat) &&& 15 = 1 by decide,
          show (49 : Nat) >>> 4 = 3 by decide,
          show (49 : Nat) &&& 15 = 1 by decide,
          show toInt16 (be16 0 216) = 216 by decide]
        decide
    · refine ⟨ProtocolSignature ++ 0x21 :: 0x32 :: 0x00 :: 0xD8 :: (n1 ++ n2), ?_, ?_⟩
      · simp [Header.WriteTo, ProxyAddress.getSignature, getTransportProtocol,
          ProxyAddress.getLength, ProxyAddress.WriteTo, addressLengthBytes, u16beBytes,
          addressToBytes_unix_of_length ⟨n1, "unixgram"⟩ h1,
          addressToBytes_unix_of_length ⟨n2, "unixgram"⟩ h2]
        decide
      · have key1 := srcRead_chunk ProtocolSignature
          (0x21 :: 0x32 :: 0x00 :: 0xD8 :: (n1 ++ n2)) 12 (by decide)
        have key2 := srcRead_one 0x21 (0x32 :: 0x00 :: 0xD8 :: (n1 ++ n2))
        have key3 := srcRead_one 0x32 (0x00 :: 0xD8 :: (n1 ++ n2))
        have key4 := srcRead_two 0x00 0xD8 (n1 ++ n2)
        have key5 : srcRead (ofBytes (n1 ++ n2)) 108 = (n1, 108, ofBytes n2, false) := by
          rw [show ofBytes (n1 ++ n2) = [n1 ++ n2] from by simp [ofBytes, hn1ne]]
          exact srcRead_chunk n1 n2 108 h1
        have key6 : srcRead (ofBytes n2) 108 = (n2, 108, [], false) := by
          rw [show ofBytes n2 = [n2] from by simp [ofBytes, hn2ne]]
          exact srcRead_chunk_all n2 108 h2
        rw [show ofBytes (ProtocolSignature ++ 0x21 :: 0x32 :: 0x00 :: 0xD8 :: (n1 ++ n2)) =
          [ProtocolSignature ++ 0x21 :: 0x32 :: 0x00 :: 0xD8 :: (n1 ++ n2)] from by simp [ofBytes]]
        unfold Header.ReadFrom
        rw [key1]
        simp only [ofBytes_cons, key2, key3, key4]
        simp only [dispatchAddress, readUnix, ofBytes_cons, key5, key6]
        simp [Header.zero, h1, h2, show (33 : Nat) &&& 15 = 1 by decide,
          show (50 : Nat) >>> 4 = 3 by decide,
          show (50 : Nat) &&& 15 = 2 by decide,
          show toInt16 (be16 0 216) = 216 by decide]
        decide

/-- C1 witness: the canonical IPv4 TCP variant round-trips. -/
theorem c1_witness :
    validProxyAddress (.IPv4Address (.TCPAddr [127, 0, 0, 1] 42446)
        (.TCPAddr [127, 0, 0, 1] 1338)) = true ∧
    ∃ out : List Nat,
      Header.WriteTo ⟨CommandPROXY, some (.IPv4Address (.TCPAddr [127, 0, 0, 1] 42446)
        (.TCPAddr [127, 0, 0, 1] 1338))⟩ = .ok out ∧
      Header.ReadFrom Header.zero (ofBytes out) =
        .ok out.length ⟨CommandPROXY, some (.IPv4Address (.TCPAddr [127, 0, 0, 1] 42446)
          (.TCPAddr [127, 0, 0, 1] 1338))⟩ [] :=
  ⟨by decide, c1_roundtrip_proxy _ (by decide)⟩

end Haproxy